import Mathlib

/-!
Shallow embedding of the core of the `tstcc` TCC (Try-Confirm-Cancel)
distributed transaction coordinator, together with proofs about its
documented behaviour.

Conventions used throughout:
* JavaScript `Map<string, V>` objects are modelled as association lists in
  insertion order; property access `obj[k]` is a first-match lookup.
* Asynchronous code is modelled by explicit outcome data: a settled promise
  is either fulfilled or rejected, and `Promise.all` fulfils exactly when
  every constituent fulfils (rejecting otherwise).
* Thrown errors are modelled with `Option`/`Except`; a JS `Error` object is
  a kind (the dynamic class, what `instanceof` inspects) plus its message.
* `created_at` timestamps (strings `YYYY-MM-DD HH:mm:ss` in the code, whose
  lexicographic order coincides with chronological order) are modelled as
  naturals ordered by `≤`.
* `Math.random()` is modelled by an explicit sequence `rand : Nat → ℚ` of
  draws, assumed in `[0, 1)` where the claims need it.
-/

namespace Tstcc

/-- Per-component try status, from `enums` (values `hanging | successful |
failure`, per the API reference in the repository docs). -/
inductive ComponentTryStatus
  | TryHanging
  | TrySuccessful
  | TryFailure
deriving DecidableEq, Repr

/-- Aggregate transaction status, from `enums` (values `hanging | successful |
failure`). -/
inductive TXStatus
  | TXHanging
  | TXSuccessful
  | TXFailure
deriving DecidableEq, Repr

/-- `ComponentTryStatusRecord` from `model.ts`: a `Record<string, {componentId,
tryStatus}>`, modelled as an association list from component id to try status
(the redundant `componentId` field is dropped; it always equals the key). -/
abbrev ComponentTryStatusRecord := List (String × ComponentTryStatus)

/-- JS property access `record[cid]`: first matching key, `none` when the
property is absent (JS yields `undefined`). -/
def lookupTryStatus (m : ComponentTryStatusRecord) (cid : String) : Option ComponentTryStatus :=
  match m with
  | [] => none
  | (k, v) :: rest => if k = cid then some v else lookupTryStatus rest cid

/-- The `Transaction` interface of `model.ts` (also the durable row shape of
`tx_record` used by `mysql-store.ts`). -/
structure Transaction where
  id : Nat
  status : TXStatus
  component_try_statuses : ComponentTryStatusRecord
  created_at : Nat
deriving DecidableEq, Repr

/-- A registered TCC component; only its identity matters for registry
bookkeeping (its `try`/`confirm`/`cancel` behaviour is supplied separately
where an embedding needs it). -/
structure TccComponent where
  id : String
deriving DecidableEq, Repr

/-- The dynamic error classes of `errors.ts` that the embedded code
distinguishes (`instanceof` checks and constructor provenance). -/
inductive ErrKind
  | storageError
  | transactionNotFound
  | duplicateComponent
  | componentExecution
  | transactionTimeout
  | genericError
deriving DecidableEq, Repr

/-- A JS `Error` value as the embedded code observes it: its class and its
`message` string. -/
structure JsError where
  kind : ErrKind
  message : String
deriving DecidableEq, Repr

/-- Helper for `String.prototype.includes`: does `tok` occur as a contiguous
run inside the character list? -/
def listContainsTok (tok : List Char) : List Char → Bool
  | [] => tok.isPrefixOf ([] : List Char)
  | c :: rest => tok.isPrefixOf (c :: rest) || listContainsTok tok rest

/-- JS `msg.includes(tok)`. -/
def strContainsTok (msg tok : String) : Bool :=
  listContainsTok tok.toList msg.toList

/-- `isRetryableError` from `errors.ts` (bundled in `model.ts`): message
substring checks first, then `instanceof StorageError`. -/
def isRetryableError (e : JsError) : Bool :=
  strContainsTok e.message "ECONNREFUSED" ||
  strContainsTok e.message "ETIMEDOUT" ||
  strContainsTok e.message "ENOTFOUND" ||
  strContainsTok e.message "timeout" ||
  e.kind == ErrKind.storageError

/-- Message built by the `DuplicateComponentError` constructor. -/
def duplicateComponentMessage (componentId : String) : String :=
  "组件 " ++ componentId ++ " 已注册，不能重复注册"

/-- A `DuplicateComponentError` as constructed by `errors.ts`. -/
def mkDuplicateComponentError (componentId : String) : JsError :=
  { kind := ErrKind.duplicateComponent, message := duplicateComponentMessage componentId }

/-- Message built by the `TransactionNotFoundError` constructor. -/
def transactionNotFoundMessage (txId : Nat) : String :=
  "事务 " ++ toString txId ++ " 不存在"

/-- A `TransactionNotFoundError` as constructed by `errors.ts`. -/
def mkTransactionNotFoundError (txId : Nat) : JsError :=
  { kind := ErrKind.transactionNotFound, message := transactionNotFoundMessage txId }

/-- Message built by the `StorageError` constructor. -/
def storageErrorMessage (operation : String) : String :=
  "存储操作失败: " ++ operation

/-- A `StorageError` as constructed by `errors.ts`. -/
def mkStorageError (operation : String) : JsError :=
  { kind := ErrKind.storageError, message := storageErrorMessage operation }

/-- `TxManager.register`: throws `DuplicateComponentError` when the id is
already a key of the `components` map, otherwise appends the component.
Returned as (resulting registry, thrown error if any); on a throw the registry
is returned unchanged because the throw precedes the `Map.set`. -/
def register (components : List TccComponent) (c : TccComponent) :
    List TccComponent × Option JsError :=
  if components.any (fun p => p.id == c.id) then
    (components, some (mkDuplicateComponentError c.id))
  else
    (components ++ [c], none)

/-- First loop of `TxManager.getStatus`: scan the registered component ids for
a `TryFailure` entry. `none` models the `TypeError` thrown when
`component_try_statuses[id]` is `undefined` and `.tryStatus` is accessed;
`some true` means an entry with `TryFailure` was found (early return);
`some false` means the loop ran to completion without finding one. -/
def checkFailureLoop (comps : List String) (m : ComponentTryStatusRecord) : Option Bool :=
  match comps with
  | [] => some false
  | c :: rest =>
    match lookupTryStatus m c with
    | none => none
    | some st =>
      if st = ComponentTryStatus.TryFailure then some true else checkFailureLoop rest m

/-- Second loop of `TxManager.getStatus`: scan for a `TryHanging` entry, with
the same `undefined`-dereference convention as `checkFailureLoop`. -/
def checkHangingLoop (comps : List String) (m : ComponentTryStatusRecord) : Option Bool :=
  match comps with
  | [] => some false
  | c :: rest =>
    match lookupTryStatus m c with
    | none => none
    | some st =>
      if st = ComponentTryStatus.TryHanging then some true else checkHangingLoop rest m

/-- `TxManager.getStatus` over the registered component ids `comps` (the
values of the `components` map in insertion order): any failure => `TXFailure`,
else any hanging => `TXHanging`, else `TXSuccessful`. Returns `none` when the
JS code would throw (a registered id without a record entry is dereferenced
before any early return fires). -/
def getStatus (comps : List String) (tx : Transaction) : Option TXStatus :=
  match checkFailureLoop comps tx.component_try_statuses with
  | none => none
  | some true => some TXStatus.TXFailure
  | some false =>
    match checkHangingLoop comps tx.component_try_statuses with
    | none => none
    | some true => some TXStatus.TXHanging
    | some false => some TXStatus.TXSuccessful

/-- The aggregate-status function as the specification words it (StateEvaluator
`aggregate`): Failure dominates Hanging dominates Successful. Stated from the
spec for comparison with `getStatus`, which is translated from the source. -/
def aggregateSpec (comps : List String) (m : ComponentTryStatusRecord) : TXStatus :=
  if comps.any (fun c => lookupTryStatus m c == some ComponentTryStatus.TryFailure) then
    TXStatus.TXFailure
  else if comps.any (fun c => lookupTryStatus m c == some ComponentTryStatus.TryHanging) then
    TXStatus.TXHanging
  else
    TXStatus.TXSuccessful

/-- Retry configuration of `retry.ts`; `jitterMs = 0` doubles as the absent
(`undefined`, falsy) case of the optional field. -/
structure RetryConfig where
  maxRetries : Nat
  baseDelayMs : Nat
  maxDelayMs : Nat
  backoffMultiplier : Nat
  jitterMs : Nat
deriving DecidableEq, Repr

/-- `DEFAULT_RETRY_CONFIG` from `retry.ts`. -/
def DEFAULT_RETRY_CONFIG : RetryConfig :=
  { maxRetries := 3, baseDelayMs := 1000, maxDelayMs := 30000
    backoffMultiplier := 2, jitterMs := 100 }

/-- Outcome of a single attempt of the wrapped operation: fulfilled with a
value, or rejected with an error that either is or is not an `instanceof
RetryableError`. -/
inductive AttemptResult (ε α : Type)
  | ok (a : α)
  | fail (e : ε) (retryable : Bool)
deriving DecidableEq, Repr

/-- Final outcome of `withRetry`: the returned value or the thrown error,
tagged with the index of the attempt that produced it. -/
inductive RetryOutcome (ε α : Type)
  | success (a : α) (attempt : Nat)
  | failure (e : ε) (attempt : Nat)
deriving DecidableEq, Repr

/-- The backoff delay computed by `withRetry` before sleeping:
`Math.min(baseDelayMs * backoffMultiplier ** attempt, maxDelayMs)`. -/
def backoffDelay (cfg : RetryConfig) (attempt : Nat) : Nat :=
  min (cfg.baseDelayMs * cfg.backoffMultiplier ^ attempt) cfg.maxDelayMs

/-- The full sleep before the next attempt: backoff delay plus jitter
`Math.random() * jitterMs` (zero when `jitterMs` is falsy). `rand attempt` is
the `Math.random()` draw consumed after the given attempt. -/
def sleepDuration (cfg : RetryConfig) (rand : Nat → ℚ) (attempt : Nat) : ℚ :=
  (backoffDelay cfg attempt : ℚ) +
    (if cfg.jitterMs == 0 then 0 else rand attempt * (cfg.jitterMs : ℚ))

/-- The loop body of `withRetry` from `retry.ts`. `attempt` is the loop index,
`fuel` the number of retries still allowed (`maxRetries - attempt`); a
non-retryable rejection is rethrown at once, a retryable rejection with no
fuel left (`attempt >= maxRetries`) is rethrown, otherwise the loop sleeps and
retries. The second component collcts the sleep durations in order. -/
def withRetryGo (op : Nat → AttemptResult ε α) (cfg : RetryConfig) (rand : Nat → ℚ) :
    Nat → Nat → RetryOutcome ε α × List ℚ
  | attempt, fuel =>
    match op attempt with
    | AttemptResult.ok a => (RetryOutcome.success a attempt, [])
    | AttemptResult.fail e retryable =>
      if retryable then
        match fuel with
        | 0 => (RetryOutcome.failure e attempt, [])
        | fuel' + 1 =>
          let rest := withRetryGo op cfg rand (attempt + 1) fuel'
          (rest.1, sleepDuration cfg rand attempt :: rest.2)
      else (RetryOutcome.failure e attempt, [])

/-- `withRetry(operation, config)` from `retry.ts`: attempts `0 .. maxRetries`,
returning the final outcome and the list of sleeps performed between
attempts. -/
def withRetry (op : Nat → AttemptResult ε α) (cfg : RetryConfig) (rand : Nat → ℚ) :
    RetryOutcome ε α × List ℚ :=
  withRetryGo op cfg rand 0 cfg.maxRetries

/-- Effect of `UPDATE tx_record SET status = ? WHERE id = ?` on one row. -/
def submitRow (txID : Nat) (st : TXStatus) (r : Transaction) : Transaction :=
  if r.id == txID then { r with status := st } else r

/-- `MySQLTxStore.TXSubmit`: `UPDATE tx_record SET status = ? WHERE id = ?`,
then `TransactionNotFoundError` when no row matched. (`mysql2`'s default
connection flags include `FOUND_ROWS`, so `affectedRows` counts matched rows,
not changed rows.) The database is the list of rows. -/
def TXSubmit (db : List Transaction) (txID : Nat) (success : Bool) :
    Except JsError (List Transaction) :=
  if db.any (fun r => r.id == txID) then
    Except.ok
      (db.map (submitRow txID (if success then TXStatus.TXSuccessful else TXStatus.TXFailure)))
  else Except.error (mkTransactionNotFoundError txID)

/-- Row order `created_at ASC` used by `GetHangingTXs`. -/
abbrev createdAtLe (a b : Transaction) : Prop :=
  a.created_at ≤ b.created_at

instance : DecidableRel createdAtLe :=
  fun a b => Nat.decLe a.created_at b.created_at

instance : IsTotal Transaction createdAtLe :=
  ⟨fun a b => Nat.le_total a.created_at b.created_at⟩

instance : IsTrans Transaction createdAtLe :=
  ⟨fun _ _ _ h1 h2 => Nat.le_trans h1 h2⟩

/-- `MySQLTxStore.GetHangingTXs`:
`SELECT * FROM tx_record WHERE status = 'hanging' ORDER BY created_at ASC
LIMIT 100` — filter the hanging rows, sort them ascending by `created_at`,
return the first 100. -/
def GetHangingTXs (db : List Transaction) : List Transaction :=
  (List.insertionSort createdAtLe
    (db.filter (fun r => r.status == TXStatus.TXHanging))).take 100

/-- `Promise.all` over unit-valued jobs: fulfils exactly when every job
fulfils, otherwise rejects (with the first rejection in list order). -/
def promiseAllUnit : List (Except JsError Unit) → Except JsError Unit
  | [] => Except.ok ()
  | Except.ok _ :: rest => promiseAllUnit rest
  | Except.error e :: _ => Except.error e

/-- One attempt of a confirm/cancel fan-out job of
`TxManager.advanceTransactionProgress`: `behavior k` is the error thrown by
the component call on attempt `k` (or `none` on success); a thrown error is
rethrown as a `RetryableError` exactly when `isRetryableError` says so. -/
def behaviorAttempt (behavior : Nat → Option JsError) (k : Nat) : AttemptResult JsError Unit :=
  match behavior k with
  | none => AttemptResult.ok ()
  | some e => AttemptResult.fail e (isRetryableError e)

/-- A whole fan-out job: the component call wrapped in `withRetry` with the
default config (the second argument at the call site is `undefined`). -/
def fanOutJob (behavior : Nat → Option JsError) (rand : Nat → ℚ) : Except JsError Unit :=
  match (withRetry (behaviorAttempt behavior) DEFAULT_RETRY_CONFIG rand).1 with
  | RetryOutcome.success _ _ => Except.ok ()
  | RetryOutcome.failure e _ => Except.error e

/-- `TxManager.advanceTransactionProgress` on a fetched transaction. `comps`
is the snapshot of registered component ids, `confirmBehavior c` /
`cancelBehavior c` the attempt-indexed outcomes of component `c`'s confirm /
cancel calls, `rand c` its `Math.random()` draws. Returns the resulting
database together with `Except.ok (some (id, s))` when `TXSubmit id s` was
awaited successfully, `Except.ok none` when the hanging early-return fired,
and `Except.error ()` when the invocation rejected (in which case `TXSubmit`
was never reached, or itself threw). -/
def advanceTransactionProgress (db : List Transaction) (comps : List String)
    (tx : Transaction) (confirmBehavior cancelBehavior : String → Nat → Option JsError)
    (rand : String → Nat → ℚ) :
    List Transaction × Except Unit (Option (Nat × Bool)) :=
  match getStatus comps tx with
  | none => (db, Except.error ())
  | some TXStatus.TXHanging => (db, Except.ok none)
  | some TXStatus.TXSuccessful =>
    match promiseAllUnit (comps.map (fun c => fanOutJob (confirmBehavior c) (rand c))) with
    | Except.error _ => (db, Except.error ())
    | Except.ok _ =>
      match TXSubmit db tx.id true with
      | Except.error _ => (db, Except.error ())
      | Except.ok db2 => (db2, Except.ok (some (tx.id, true)))
  | some TXStatus.TXFailure =>
    match promiseAllUnit (comps.map (fun c => fanOutJob (cancelBehavior c) (rand c))) with
    | Except.error _ => (db, Except.error ())
    | Except.ok _ =>
      match TXSubmit db tx.id false with
      | Except.error _ => (db, Except.error ())
      | Except.ok db2 => (db2, Except.ok (some (tx.id, false)))

/-- `TxConfig` from `tx_config.ts`. -/
structure TxConfig where
  timeout : Int
  monitorInterval : Int
  enableMonitor : Bool
deriving DecidableEq, Repr

/-- The `TxConfig` constructor: non-positive `timeout` is replaced by 5000,
non-positive `monitorInterval` by 1000. -/
def mkTxConfig (timeoutArg monitorIntervalArg : Int) (enableMonitorArg : Bool) : TxConfig :=
  { timeout := if timeoutArg > 0 then timeoutArg else 5000
    monitorInterval := if monitorIntervalArg > 0 then monitorIntervalArg else 1000
    enableMonitor := enableMonitorArg }

/-- The delay `startTransaction` passes to `setTimeout` for the Try-phase
timer: `this.config.timeout`. -/
def tryPhaseTimerDeadline (cfg : TxConfig) : Int :=
  cfg.timeout

/-- A settled promise in the Try-phase race of `startTransaction`: whether it
fulfilled, and when it settled (ms). -/
structure TimedOutcome where
  ok : Bool
  time : Int
deriving DecidableEq, Repr

/-- The timer promise of `startTransaction`: `new Promise((resolve, reject) =>
setTimeout(() => reject(new TransactionTimeoutError(txId, timeout)), timeout))`.
`resolve` is never invoked, so the promise only ever rejects — at the
deadline. -/
def timerJob (cfg : TxConfig) : TimedOutcome :=
  { ok := false, time := tryPhaseTimerDeadline cfg }

/-- `Promise.all(jobs)` fulfils exactly when every constituent fulfils. -/
def promiseAllOk (jobs : List TimedOutcome) : Bool :=
  jobs.all (fun j => j.ok)

/-- The value of `transactionSuccess` computed by `TxManager.startTransaction`:
`true` iff `await Promise.all(jobs)` fulfils, where `jobs` is the timer
followed by one composite job per component (its `try()` plus the subsequent
`TXUpdateComponentStatus`, fulfilled iff both succeeded). This is also the
`success` field of the returned `{txId, success}`. -/
def startTransactionTrySuccess (cfg : TxConfig) (tryJobs : List TimedOutcome) : Bool :=
  promiseAllOk (timerJob cfg :: tryJobs)

/-! ### Lemmas about `getStatus` -/

lemma checkFailureLoop_eq_any (comps : List String) (m : ComponentTryStatusRecord)
    (h : ∀ c ∈ comps, (lookupTryStatus m c).isSome) :
    checkFailureLoop comps m =
      some (comps.any fun c => lookupTryStatus m c == some ComponentTryStatus.TryFailure) := by
  induction comps with
  | nil => simp [checkFailureLoop]
  | cons c rest ih =>
    have hc := h c (List.mem_cons_self c rest)
    cases hlk : lookupTryStatus m c with
    | none => rw [hlk] at hc; simp at hc
    | some st =>
      by_cases hst : st = ComponentTryStatus.TryFailure
      · subst hst
        simp [checkFailureLoop, hlk]
      · have hne : (some st == some ComponentTryStatus.TryFailure) = false := by
          simp [hst]
        simp only [checkFailureLoop, hlk, if_neg hst, List.any_cons, hne, Bool.false_or]
        exact ih (fun d hd => h d (List.mem_cons_of_mem c hd))

lemma checkHangingLoop_eq_any (comps : List String) (m : ComponentTryStatusRecord)
    (h : ∀ c ∈ comps, (lookupTryStatus m c).isSome) :
    checkHangingLoop comps m =
      some (comps.any fun c => lookupTryStatus m c == some ComponentTryStatus.TryHanging) := by
  induction comps with
  | nil => simp [checkHangingLoop]
  | cons c rest ih =>
    have hc := h c (List.mem_cons_self c rest)
    cases hlk : lookupTryStatus m c with
    | none => rw [hlk] at hc; simp at hc
    | some st =>
      by_cases hst : st = ComponentTryStatus.TryHanging
      · subst hst
        simp [checkHangingLoop, hlk]
      · have hne : (some st == some ComponentTryStatus.TryHanging) = false := by
          simp [hst]
        simp only [checkHangingLoop, hlk, if_neg hst, List.any_cons, hne, Bool.false_or]
        exact ih (fun d hd => h d (List.mem_cons_of_mem c hd))

lemma getStatus_eq_aggregateSpec (comps : List String) (tx : Transaction)
    (h : ∀ c ∈ comps, (lookupTryStatus tx.component_try_statuses c).isSome) :
    getStatus comps tx = some (aggregateSpec comps tx.component_try_statuses) := by
  unfold getStatus aggregateSpec
  rw [checkFailureLoop_eq_any comps _ h, checkHangingLoop_eq_any comps _ h]
  by_cases hf :
      (comps.any fun c =>
        lookupTryStatus tx.component_try_statuses c == some ComponentTryStatus.TryFailure) = true
  · simp [hf]
  · simp only [Bool.not_eq_true] at hf
    by_cases hh :
        (comps.any fun c =>
          lookupTryStatus tx.component_try_statuses c == some ComponentTryStatus.TryHanging) = true
    · simp [hf, hh]
    · simp only [Bool.not_eq_true] at hh
      simp [hf, hh]

lemma checkFailureLoop_of_missing (comps : List String) (m : ComponentTryStatusRecord)
    (c : String) (hc : c ∈ comps) (hmiss : lookupTryStatus m c = none) :
    checkFailureLoop comps m = none ∨ checkFailureLoop comps m = some true := by
  induction comps with
  | nil => cases hc
  | cons d rest ih =>
    cases hlk : lookupTryStatus m d with
    | none => left; simp [checkFailureLoop, hlk]
    | some st =>
      by_cases hst : st = ComponentTryStatus.TryFailure
      · right; simp [checkFailureLoop, hlk, hst]
      · have hcr : c ∈ rest := by
          rcases List.mem_cons.mp hc with hcd | hcr
          · subst hcd; rw [hlk] at hmiss; cases hmiss
          · exact hcr
        have := ih hcr
        simpa [checkFailureLoop, hlk, if_neg hst] using this

/-- Claim C2: `TxManager.getStatus` is the pure aggregate of the registered
components' try statuses — `Failure` if any registered component's entry is
`TryFailure`, otherwise `Hanging` if any is `TryHanging`, otherwise
`Successful` (as `aggregateSpec` states, word for word from the spec) — and
consequently a transaction with a `Failure` entry for a registered component
never aggregates to `Successful`. Stated for transactions whose record covers
every registered id (the totality precondition examined by claim C10). -/
theorem getStatus_aggregate_of_tryStatuses (comps : List String) (tx : Transaction)
    (h : ∀ c ∈ comps, (lookupTryStatus tx.component_try_statuses c).isSome) :
    getStatus comps tx = some (aggregateSpec comps tx.component_try_statuses) ∧
    (∀ c ∈ comps,
      lookupTryStatus tx.component_try_statuses c = some ComponentTryStatus.TryFailure →
      getStatus comps tx ≠ some TXStatus.TXSuccessful) := by
  refine ⟨getStatus_eq_aggregateSpec comps tx h, ?_⟩
  intro c hc hfail
  have hany :
      (comps.any fun d =>
        lookupTryStatus tx.component_try_statuses d == some ComponentTryStatus.TryFailure) = true := by
    rw [List.any_eq_true]
    exact ⟨c, hc, by simp [hfail]⟩
  rw [getStatus_eq_aggregateSpec comps tx h]
  unfold aggregateSpec
  simp [hany]

/-- Witness for C2: two registered components, one successful and one still
hanging, aggregate to `Hanging`. -/
theorem getStatus_aggregate_of_tryStatuses_witness :
    getStatus ["a", "b"]
        { id := 1, status := TXStatus.TXHanging
          component_try_statuses :=
            [("a", ComponentTryStatus.TrySuccessful), ("b", ComponentTryStatus.TryHanging)]
          created_at := 0 } =
      some (aggregateSpec ["a", "b"]
        [("a", ComponentTryStatus.TrySuccessful), ("b", ComponentTryStatus.TryHanging)]) :=
  (getStatus_aggregate_of_tryStatuses ["a", "b"]
    { id := 1, status := TXStatus.TXHanging
      component_try_statuses :=
        [("a", ComponentTryStatus.TrySuccessful), ("b", ComponentTryStatus.TryHanging)]
      created_at := 0 } (by decide)).1

/-- Counterexample to claim C10 as stated: a registered id (`"b"`) is absent
from the record, yet `getStatus` does not throw — the first loop finds the
`TryFailure` entry of `"a"` and returns `Failure` before the missing key is
dereferenced. -/
theorem getStatus_missing_key_counterexample :
    lookupTryStatus [("a", ComponentTryStatus.TryFailure)] "b" = none ∧
    getStatus ["a", "b"]
        { id := 1, status := TXStatus.TXHanging
          component_try_statuses := [("a", ComponentTryStatus.TryFailure)]
          created_at := 0 } =
      some TXStatus.TXFailure := by
  constructor
  · decide
  · decide

/-- Claim C10 (amended): under the precondition that every registered id is a
key of `component_try_statuses`, `getStatus` is total; when some registered id
is absent, `getStatus` either throws (the `undefined` dereference, modelled by
`none`) or returns `Failure` because an entry with `TryFailure` earlier in
registration order short-circuits the first loop — it never returns `Hanging`
or `Successful`. -/
theorem getStatus_total_of_keys_present (comps : List String) (tx : Transaction) :
    ((∀ c ∈ comps, (lookupTryStatus tx.component_try_statuses c).isSome) →
      (getStatus comps tx).isSome) ∧
    (∀ c ∈ comps, lookupTryStatus tx.component_try_statuses c = none →
      getStatus comps tx = none ∨ getStatus comps tx = some TXStatus.TXFailure) := by
  constructor
  · intro h
    rw [getStatus_eq_aggregateSpec comps tx h]
    rfl
  · intro c hc hmiss
    rcases checkFailureLoop_of_missing comps tx.component_try_statuses c hc hmiss with hf | hf
    · left; unfold getStatus; rw [hf]
    · right; unfold getStatus; rw [hf]

/-- Witness for C10: with both registered ids present the status is computed
(total), and with an id absent behind a failure entry the dichotomy holds. -/
theorem getStatus_total_of_keys_present_witness :
    (getStatus ["a"]
      { id := 1, status := TXStatus.TXHanging
        component_try_statuses := [("a", ComponentTryStatus.TryHanging)]
        created_at := 0 }).isSome ∧
    (getStatus ["b", "a"]
        { id := 2, status := TXStatus.TXHanging
          component_try_statuses := [("a", ComponentTryStatus.TrySuccessful)]
          created_at := 0 } = none ∨
      getStatus ["b", "a"]
        { id := 2, status := TXStatus.TXHanging
          component_try_statuses := [("a", ComponentTryStatus.TrySuccessful)]
          created_at := 0 } = some TXStatus.TXFailure) :=
  ⟨(getStatus_total_of_keys_present ["a"]
      { id := 1, status := TXStatus.TXHanging
        component_try_statuses := [("a", ComponentTryStatus.TryHanging)]
        created_at := 0 }).1 (by decide),
   (getStatus_total_of_keys_present ["b", "a"]
      { id := 2, status := TXStatus.TXHanging
        component_try_statuses := [("a", ComponentTryStatus.TrySuccessful)]
        created_at := 0 }).2 "b" (by decide) (by decide)⟩

/-! ### `register` (claim C6) -/

/-- Claim C6: `TxManager.register` fails with `DuplicateComponentError` iff a
component with the same id is already registered; on that failure the
registry is unchanged (the throw precedes `Map.set`); with a fresh id it
succeeds and appends exactly one entry. -/
theorem register_duplicate_spec (reg : List TccComponent) (c : TccComponent) :
    (((register reg c).2).isSome ↔ c.id ∈ reg.map TccComponent.id) ∧
    (c.id ∈ reg.map TccComponent.id →
      register reg c = (reg, some (mkDuplicateComponentError c.id))) ∧
    (c.id ∉ reg.map TccComponent.id →
      register reg c = (reg ++ [c], none) ∧
        ((register reg c).1).length = reg.length + 1) := by
  have hmem : (reg.any fun p => p.id == c.id) = true ↔ c.id ∈ reg.map TccComponent.id := by
    rw [List.any_eq_true]
    constructor
    · rintro ⟨p, hp, hpc⟩
      exact List.mem_map.mpr ⟨p, hp, by simpa using hpc⟩
    · rintro hm
      rcases List.mem_map.mp hm with ⟨p, hp, hpc⟩
      exact ⟨p, hp, by simp [hpc]⟩
  by_cases hd : c.id ∈ reg.map TccComponent.id
  · have hany : (reg.any fun p => p.id == c.id) = true := hmem.mpr hd
    refine ⟨?_, fun _ => ?_, fun hn => absurd hd hn⟩
    · simp [register, hany, hd]
    · simp [register, hany]
  · have hany : (reg.any fun p => p.id == c.id) = false := by
      rw [Bool.eq_false_iff]
      intro hcon
      exact hd (hmem.mp hcon)
    refine ⟨?_, fun hc => absurd hc hd, fun _ => ?_⟩
    · simp [register, hany, hd]
    · constructor
      · simp [register, hany]
      · simp [register, hany]

/-- Witness for C6: registering id `"X"` twice fails with the duplicate error
and keeps the registry at one entry; a fresh id `"Y"` afterwards grows it to
two. -/
theorem register_duplicate_spec_witness :
    register [⟨"X"⟩] ⟨"X"⟩ = ([⟨"X"⟩], some (mkDuplicateComponentError "X")) ∧
    register [⟨"X"⟩] ⟨"Y"⟩ = ([⟨"X"⟩, ⟨"Y"⟩], none) ∧
    ((register [⟨"X"⟩] ⟨"Y"⟩).1).length = 2 :=
  ⟨(register_duplicate_spec [⟨"X"⟩] ⟨"X"⟩).2.1 (by decide),
   ((register_duplicate_spec [⟨"X"⟩] ⟨"Y"⟩).2.2 (by decide)).1,
   ((register_duplicate_spec [⟨"X"⟩] ⟨"Y"⟩).2.2 (by decide)).2⟩

/-! ### `TXSubmit` (claim C5) -/

lemma submitRow_id (txID : Nat) (st : TXStatus) (r : Transaction) :
    (submitRow txID st r).id = r.id := by
  rcases r with ⟨rid, rst, rcts, rca⟩
  unfold submitRow
  by_cases hr : (rid == txID) = true
  · simp [hr]
  · simp [hr]

lemma submitRow_idem (txID : Nat) (st : TXStatus) (r : Transaction) :
    submitRow txID st (submitRow txID st r) = submitRow txID st r := by
  rcases r with ⟨rid, rst, rcts, rca⟩
  unfold submitRow
  by_cases hr : (rid == txID) = true
  · simp [hr]
  · simp [hr]

lemma any_id_map_submitRow (db : List Transaction) (txID : Nat) (st : TXStatus) :
    ((db.map (submitRow txID st)).any fun r => r.id == txID) =
      (db.any fun r => r.id == txID) := by
  induction db with
  | nil => rfl
  | cons r rest ih => simp [List.any_cons, ih, submitRow_id]

lemma map_submitRow_idem (db : List Transaction) (txID : Nat) (st : TXStatus) :
    (db.map (submitRow txID st)).map (submitRow txID st) = db.map (submitRow txID st) := by
  induction db with
  | nil => rfl
  | cons r rest ih => simp [ih, submitRow_idem]

lemma TXSubmit_ok_inv (db : List Transaction) (txID : Nat) (success : Bool)
    (db' : List Transaction) (h : TXSubmit db txID success = Except.ok db') :
    (db.any fun r => r.id == txID) = true ∧
      db' = db.map
        (submitRow txID (if success then TXStatus.TXSuccessful else TXStatus.TXFailure)) := by
  unfold TXSubmit at h
  by_cases hany : (db.any fun r => r.id == txID) = true
  · rw [if_pos hany] at h
    exact ⟨hany, (Except.ok.inj h).symm⟩
  · rw [if_neg hany] at h
    cases h

/-- Claim C5: `TXSubmit` is idempotent for the same `(txId, success)` pair —
after a successful `TXSubmit db txID s = ok db'`, calling it again with the
same arguments succeeds and leaves the database (hence the stored status)
unchanged. -/
theorem TXSubmit_idempotent (db : List Transaction) (txID : Nat) (success : Bool)
    (db' : List Transaction) (h : TXSubmit db txID success = Except.ok db') :
    TXSubmit db' txID success = Except.ok db' := by
  rcases TXSubmit_ok_inv db txID success db' h with ⟨hany, hdb⟩
  have hany' : (db'.any fun r => r.id == txID) = true := by
    rw [hdb, any_id_map_submitRow]
    exact hany
  unfold TXSubmit
  rw [if_pos hany', hdb, map_submitRow_idem]

/-- Witness for C5: submitting transaction 1 as successful twice — the second
call is a no-op returning the same stored state. -/
theorem TXSubmit_idempotent_witness :
    TXSubmit [{ id := 1, status := TXStatus.TXSuccessful, component_try_statuses := []
                created_at := 5 }] 1 true =
      Except.ok [{ id := 1, status := TXStatus.TXSuccessful, component_try_statuses := []
                   created_at := 5 }] :=
  TXSubmit_idempotent
    [{ id := 1, status := TXStatus.TXHanging, component_try_statuses := [], created_at := 5 }]
    1 true
    [{ id := 1, status := TXStatus.TXSuccessful, component_try_statuses := [], created_at := 5 }]
    rfl

/-! ### `TxConfig` and the Try-phase timer deadline (claim C8) -/

/-- Counterexample to claim C8 as stated: a configured timeout of 0 does not
give a 0 ms timer deadline — the `TxConfig` constructor replaces any
non-positive timeout with the default 5000, so the Try phase does not fail
immediately. -/
theorem tryPhaseTimerDeadline_zero_counterexample :
    tryPhaseTimerDeadline (mkTxConfig 0 1000 true) = 5000 ∧
    ¬ tryPhaseTimerDeadline (mkTxConfig 0 1000 true) = 0 := by
  constructor
  · decide
  · decide

/-- Claim C8 (amended): the effective Try-phase timer deadline equals the
timeout passed to `TxConfig` for every value greater than 0; a non-positive
configured timeout (in particular 0) is replaced by the default 5000 ms, so
the timer deadline is 5000, not 0, and there is no immediate failure. -/
theorem tryPhaseTimerDeadline_spec (t m : Int) (e : Bool) :
    (0 < t → tryPhaseTimerDeadline (mkTxConfig t m e) = t) ∧
    (t ≤ 0 → tryPhaseTimerDeadline (mkTxConfig t m e) = 5000) := by
  constructor
  · intro ht
    simp [tryPhaseTimerDeadline, mkTxConfig, ht]
  · intro ht
    have : ¬ t > 0 := by omega
    simp [tryPhaseTimerDeadline, mkTxConfig, this]

/-- Witness for C8: a positive timeout of 250 ms is used verbatim as the timer
deadline, and a timeout of 0 yields the default 5000 ms deadline. -/
theorem tryPhaseTimerDeadline_spec_witness :
    tryPhaseTimerDeadline (mkTxConfig 250 1000 true) = 250 ∧
    tryPhaseTimerDeadline (mkTxConfig 0 500 false) = 5000 :=
  ⟨(tryPhaseTimerDeadline_spec 250 1000 true).1 (by decide),
   (tryPhaseTimerDeadline_spec 0 500 false).2 (by decide)⟩

/-! ### `isRetryableError` (claim C9) -/

/-- Counterexample to claim C9 as stated: two `DuplicateComponentError`s — the
same error kind, built by the same constructor — receive different
classifications, because `isRetryableError` inspects the message text and the
component id `"timeout"` makes the message contain the substring `timeout`. -/
theorem isRetryableError_message_counterexample :
    (mkDuplicateComponentError "timeout").kind = (mkDuplicateComponentError "a").kind ∧
    isRetryableError (mkDuplicateComponentError "timeout") = true ∧
    isRetryableError (mkDuplicateComponentError "a") = false := by
  refine ⟨rfl, ?_, ?_⟩
  · decide
  · decide

/-- Claim C9 (amended): classification depends on the message text as well as
the kind. Every `StorageError` is retryable regardless of message (the
`instanceof StorageError` disjunct); every other kind is classified from its
message alone — retryable iff the message contains one of `ECONNREFUSED`,
`ETIMEDOUT`, `ENOTFOUND`, `timeout` — so a `TransactionNotFound` or
`DuplicateParticipant` error is terminal exactly when its message avoids
those substrings, and two errors of the same kind can differ (see the
counterexample). -/
theorem isRetryableError_spec :
    (∀ msg : String, isRetryableError { kind := ErrKind.storageError, message := msg } = true) ∧
    (∀ operation : String, isRetryableError (mkStorageError operation) = true) ∧
    (∀ e : JsError, e.kind ≠ ErrKind.storageError →
      (isRetryableError e = true ↔
        (strContainsTok e.message "ECONNREFUSED" = true ∨
         strContainsTok e.message "ETIMEDOUT" = true ∨
         strContainsTok e.message "ENOTFOUND" = true ∨
         strContainsTok e.message "timeout" = true))) := by
  refine ⟨?_, ?_, ?_⟩
  · intro msg
    simp [isRetryableError]
  · intro operation
    simp [isRetryableError, mkStorageError]
  · intro e he
    have hk : (e.kind == ErrKind.storageError) = false := by
      simp [he]
    simp [isRetryableError, hk, Bool.or_eq_true, or_assoc]

/-- Witness for C9: a `TransactionNotFoundError` for transaction 42 is
terminal (its message contains none of the retryable substrings), while any
`StorageError` is retryable. -/
theorem isRetryableError_spec_witness :
    isRetryableError (mkStorageError "TXSubmit") = true ∧
    isRetryableError (mkTransactionNotFoundError 42) = false :=
  ⟨isRetryableError_spec.2.1 "TXSubmit",
   by
    have h := isRetryableError_spec.2.2 (mkTransactionNotFoundError 42) (by decide)
    rw [Bool.eq_false_iff]
    intro hcon
    rcases h.mp hcon with h1 | h2 | h3 | h4
    · revert h1; decide
    · revert h2; decide
    · revert h3; decide
    · revert h4; decide⟩

/-! ### The Try-phase race of `startTransaction` (claim C3) -/

/-- Claim C3 (code bug): the `success` field computed by `startTransaction` is
`false` for every configuration and every collection of component Try
outcomes — even when every component's `try()` and `TXUpdateComponentStatus`
fulfil promptly — because the timer promise is part of the `Promise.all` array
and only ever rejects, never fulfils, so `Promise.all(jobs)` can never fulfil.
The second conjunct evaluates the happy path the repository's own test
expects to return `success=true` (two components fulfilling at 10 ms and
20 ms under the test's 5000 ms budget). -/
theorem startTransactionTrySuccess_always_false :
    (∀ (cfg : TxConfig) (tryJobs : List TimedOutcome),
      startTransactionTrySuccess cfg tryJobs = false) ∧
    startTransactionTrySuccess (mkTxConfig 5000 1000 false)
      [{ ok := true, time := 10 }, { ok := true, time := 20 }] = false := by
  constructor
  · intro cfg tryJobs
    simp [startTransactionTrySuccess, promiseAllOk, timerJob]
  · decide

/-! ### `GetHangingTXs` (claim C7) -/

/-- Claim C7: `GetHangingTXs` returns only transactions whose stored status is
`Hanging`, sorted ascending by `created_at`, returns at most 100 rows, and
excludes every transaction with a terminal status. -/
theorem GetHangingTXs_spec (db : List Transaction) :
    (∀ tx ∈ GetHangingTXs db, tx.status = TXStatus.TXHanging) ∧
    List.Sorted createdAtLe (GetHangingTXs db) ∧
    (GetHangingTXs db).length ≤ 100 ∧
    (∀ tx ∈ GetHangingTXs db,
      tx.status ≠ TXStatus.TXSuccessful ∧ tx.status ≠ TXStatus.TXFailure) := by
  have hmem : ∀ tx ∈ GetHangingTXs db, tx.status = TXStatus.TXHanging := by
    intro tx htx
    have h1 : tx ∈ List.insertionSort createdAtLe
        (db.filter fun r => r.status == TXStatus.TXHanging) :=
      List.take_subset _ _ htx
    have h2 : tx ∈ db.filter fun r => r.status == TXStatus.TXHanging := by
      simpa using h1
    have h3 := (List.mem_filter.mp h2).2
    simpa using h3
  refine ⟨hmem, ?_, ?_, ?_⟩
  · have hs : List.Sorted createdAtLe (List.insertionSort createdAtLe
        (db.filter fun r => r.status == TXStatus.TXHanging)) :=
      List.sorted_insertionSort createdAtLe _
    exact List.Pairwise.sublist (List.take_sublist _ _) hs
  · exact List.length_take_le _ _
  · intro tx htx
    rw [hmem tx htx]
    exact ⟨(by decide), (by decide)⟩

/-- Witness for C7: on a concrete store with two hanging rows (created at 30
and 20) and one successful row, the result is bounded by 100, sorted
ascending by `created_at`, and contains the hanging row created at 20. -/
theorem GetHangingTXs_spec_witness :
    (GetHangingTXs
        [{ id := 1, status := TXStatus.TXHanging, component_try_statuses := [], created_at := 30 },
         { id := 2, status := TXStatus.TXSuccessful, component_try_statuses := [], created_at := 10 },
         { id := 3, status := TXStatus.TXHanging, component_try_statuses := [], created_at := 20 }]).length ≤ 100 ∧
    List.Sorted createdAtLe
      (GetHangingTXs
        [{ id := 1, status := TXStatus.TXHanging, component_try_statuses := [], created_at := 30 },
         { id := 2, status := TXStatus.TXSuccessful, component_try_statuses := [], created_at := 10 },
         { id := 3, status := TXStatus.TXHanging, component_try_statuses := [], created_at := 20 }]) ∧
    ({ id := 3, status := TXStatus.TXHanging, component_try_statuses := [],
       created_at := 20 } : Transaction).status = TXStatus.TXHanging :=
  ⟨(GetHangingTXs_spec
      [{ id := 1, status := TXStatus.TXHanging, component_try_statuses := [], created_at := 30 },
       { id := 2, status := TXStatus.TXSuccessful, component_try_statuses := [], created_at := 10 },
       { id := 3, status := TXStatus.TXHanging, component_try_statuses := [], created_at := 20 }]).2.2.1,
   (GetHangingTXs_spec
      [{ id := 1, status := TXStatus.TXHanging, component_try_statuses := [], created_at := 30 },
       { id := 2, status := TXStatus.TXSuccessful, component_try_statuses := [], created_at := 10 },
       { id := 3, status := TXStatus.TXHanging, component_try_statuses := [], created_at := 20 }]).2.1,
   (GetHangingTXs_spec
      [{ id := 1, status := TXStatus.TXHanging, component_try_statuses := [], created_at := 30 },
       { id := 2, status := TXStatus.TXSuccessful, component_try_statuses := [], created_at := 10 },
       { id := 3, status := TXStatus.TXHanging, component_try_statuses := [], created_at := 20 }]).1
     { id := 3, status := TXStatus.TXHanging, component_try_statuses := [], created_at := 20 }
     (by decide)⟩

/-! ### `withRetry` (claim C4) -/

lemma withRetryGo_ok {ε α : Type} (op : Nat → AttemptResult ε α) (cfg : RetryConfig)
    (rand : Nat → ℚ) (attempt fuel : Nat) (a : α) (h : op attempt = AttemptResult.ok a) :
    withRetryGo op cfg rand attempt fuel = (RetryOutcome.success a attempt, []) := by
  conv_lhs => rw [withRetryGo]
  rw [h]

lemma withRetryGo_terminal {ε α : Type} (op : Nat → AttemptResult ε α) (cfg : RetryConfig)
    (rand : Nat → ℚ) (attempt fuel : Nat) (e : ε) (h : op attempt = AttemptResult.fail e false) :
    withRetryGo op cfg rand attempt fuel = (RetryOutcome.failure e attempt, []) := by
  conv_lhs => rw [withRetryGo]
  rw [h]
  rfl

lemma withRetryGo_exhausted {ε α : Type} (op : Nat → AttemptResult ε α) (cfg : RetryConfig)
    (rand : Nat → ℚ) (attempt : Nat) (e : ε) (h : op attempt = AttemptResult.fail e true) :
    withRetryGo op cfg rand attempt 0 = (RetryOutcome.failure e attempt, []) := by
  conv_lhs => rw [withRetryGo]
  rw [h]
  rfl

lemma withRetryGo_retry {ε α : Type} (op : Nat → AttemptResult ε α) (cfg : RetryConfig)
    (rand : Nat → ℚ) (attempt fuel : Nat) (e : ε) (h : op attempt = AttemptResult.fail e true) :
    withRetryGo op cfg rand attempt (fuel + 1) =
      ((withRetryGo op cfg rand (attempt + 1) fuel).1,
       sleepDuration cfg rand attempt :: (withRetryGo op cfg rand (attempt + 1) fuel).2) := by
  conv_lhs => rw [withRetryGo]
  rw [h]
  rfl

lemma withRetryGo_skip {ε α : Type} (op : Nat → AttemptResult ε α) (cfg : RetryConfig)
    (rand : Nat → ℚ) (k : Nat) :
    ∀ (start fuel : Nat), k ≤ fuel →
      (∀ j, j < k → ∃ e, op (start + j) = AttemptResult.fail e true) →
      withRetryGo op cfg rand start fuel =
        ((withRetryGo op cfg rand (start + k) (fuel - k)).1,
         ((List.range k).map fun j => sleepDuration cfg rand (start + j)) ++
           (withRetryGo op cfg rand (start + k) (fuel - k)).2) := by
  induction k with
  | zero =>
    intro start fuel _ _
    simp
  | succ k ih =>
    intro start fuel hk hfail
    obtain ⟨e0, he0⟩ := hfail 0 (Nat.succ_pos k)
    rw [Nat.add_zero] at he0
    obtain ⟨fuel', rfl⟩ : ∃ f', fuel = f' + 1 := ⟨fuel - 1, by omega⟩
    rw [withRetryGo_retry op cfg rand start fuel' e0 he0]
    have ih' := ih (start + 1) fuel' (by omega) (fun j hj => by
      obtain ⟨e, he⟩ := hfail (j + 1) (by omega)
      refine ⟨e, ?_⟩
      rwa [show start + 1 + j = start + (j + 1) by omega])
    rw [ih']
    have h1 : start + 1 + k = start + (k + 1) := by omega
    have h2 : fuel' - k = fuel' + 1 - (k + 1) := by omega
    have h3 : (fun j => sleepDuration cfg rand (start + 1 + j)) =
        ((fun j => sleepDuration cfg rand (start + j)) ∘ Nat.succ) := by
      funext j
      have : start + 1 + j = start + Nat.succ j := by omega
      simp [Function.comp, this]
    rw [h1, h2, h3, List.range_succ_eq_map, List.map_cons, List.map_map]
    simp

/-- Claim C4: `withRetry` — a retryable failure on attempt `k` below
`maxRetries` sleeps `min(baseDelayMs * backoffMultiplier^k, maxDelayMs)` plus
`Math.random() * jitterMs` and retries; a terminal failure is re-thrown at
once with no further attempts; a retryable failure on attempt `maxRetries` is
thrown as the last failure; a successful attempt returns its result at once.
The first three conjuncts give the exact outcome and the exact sleep list of
each scenario; the last bounds each sleep within `[backoff, backoff +
jitterMs)` whenever the random draws lie in `[0, 1)`. -/
theorem withRetry_spec {ε α : Type} (op : Nat → AttemptResult ε α) (cfg : RetryConfig)
    (rand : Nat → ℚ) :
    (∀ k a, k ≤ cfg.maxRetries →
      (∀ j, j < k → ∃ e, op j = AttemptResult.fail e true) →
      op k = AttemptResult.ok a →
      withRetry op cfg rand =
        (RetryOutcome.success a k, (List.range k).map (sleepDuration cfg rand))) ∧
    (∀ k e, k ≤ cfg.maxRetries →
      (∀ j, j < k → ∃ ej, op j = AttemptResult.fail ej true) →
      op k = AttemptResult.fail e false →
      withRetry op cfg rand =
        (RetryOutcome.failure e k, (List.range k).map (sleepDuration cfg rand))) ∧
    (∀ e, (∀ j, j < cfg.maxRetries → ∃ ej, op j = AttemptResult.fail ej true) →
      op cfg.maxRetries = AttemptResult.fail e true →
      withRetry op cfg rand =
        (RetryOutcome.failure e cfg.maxRetries,
         (List.range cfg.maxRetries).map (sleepDuration cfg rand))) ∧
    (∀ k, 0 ≤ rand k → rand k < 1 → 0 < cfg.jitterMs →
      (backoffDelay cfg k : ℚ) ≤ sleepDuration cfg rand k ∧
        sleepDuration cfg rand k < (backoffDelay cfg k : ℚ) + (cfg.jitterMs : ℚ)) := by
  have hzero : ∀ j : Nat, 0 + j = j := fun j => Nat.zero_add j
  refine ⟨?_, ?_, ?_, ?_⟩
  · intro k a hk hfail hok
    unfold withRetry
    rw [withRetryGo_skip op cfg rand k 0 cfg.maxRetries hk
        (fun j hj => by simpa [hzero] using hfail j hj)]
    rw [Nat.zero_add, withRetryGo_ok op cfg rand k (cfg.maxRetries - k) a hok]
    simp
  · intro k e hk hfail hterm
    unfold withRetry
    rw [withRetryGo_skip op cfg rand k 0 cfg.maxRetries hk
        (fun j hj => by simpa [hzero] using hfail j hj)]
    rw [Nat.zero_add, withRetryGo_terminal op cfg rand k (cfg.maxRetries - k) e hterm]
    simp
  · intro e hfail hlast
    unfold withRetry
    rw [withRetryGo_skip op cfg rand cfg.maxRetries 0 cfg.maxRetries (Nat.le_refl _)
        (fun j hj => by simpa [hzero] using hfail j hj)]
    rw [Nat.zero_add, Nat.sub_self,
        withRetryGo_exhausted op cfg rand cfg.maxRetries e hlast]
    simp
  · intro k h0 h1 hj
    have hjne : (cfg.jitterMs == 0) = false := by
      simp
      omega
    constructor
    · unfold sleepDuration
      rw [hjne]
      simp only [Bool.false_eq_true, if_false]
      have : 0 ≤ rand k * (cfg.jitterMs : ℚ) := by positivity
      linarith
    · unfold sleepDuration
      rw [hjne]
      simp only [Bool.false_eq_true, if_false]
      have hjpos : (0 : ℚ) < (cfg.jitterMs : ℚ) := by
        exact_mod_cast hj
      have : rand k * (cfg.jitterMs : ℚ) < 1 * (cfg.jitterMs : ℚ) :=
        mul_lt_mul_of_pos_right h1 hjpos
      linarith

/-- Witness for C4: an operation that fails retryably on attempt 0 and
succeeds on attempt 1, run under the default config with `Math.random()`
always drawing 1/2 — the result is the attempt-1 success after exactly one
sleep of 1000 + 50 = 1050 ms. -/
theorem withRetry_spec_witness :
    withRetry
        (fun k => if k = 0 then AttemptResult.fail (mkStorageError "CreateTx") true
                  else AttemptResult.ok 42)
        DEFAULT_RETRY_CONFIG (fun _ => (1 : ℚ) / 2) =
      (RetryOutcome.success 42 1, [(1050 : ℚ)]) := by
  have h := (withRetry_spec
      (fun k => if k = 0 then AttemptResult.fail (mkStorageError "CreateTx") true
                else AttemptResult.ok 42)
      DEFAULT_RETRY_CONFIG (fun _ => (1 : ℚ) / 2)).1 1 42 (by decide)
      (fun j hj => by
        have hj0 : j = 0 := by omega
        subst hj0
        exact ⟨mkStorageError "CreateTx", rfl⟩)
      rfl
  rw [h]
  simp [sleepDuration, backoffDelay, DEFAULT_RETRY_CONFIG, List.range_succ]
  norm_num

/-! ### `advanceTransactionProgress` (claim C1) -/

lemma promiseAllUnit_ok_iff (l : List (Except JsError Unit)) :
    promiseAllUnit l = Except.ok () ↔ ∀ x ∈ l, x = Except.ok () := by
  induction l with
  | nil => simp [promiseAllUnit]
  | cons x rest ih =>
    cases x with
    | ok u =>
      cases u
      simp [promiseAllUnit, ih]
    | error e =>
      simp [promiseAllUnit]

lemma promiseAllUnit_map_ok_iff (comps : List String) (f : String → Except JsError Unit) :
    promiseAllUnit (comps.map f) = Except.ok () ↔ ∀ c ∈ comps, f c = Except.ok () := by
  rw [promiseAllUnit_ok_iff]
  constructor
  · intro h c hc
    exact h (f c) (List.mem_map_of_mem f hc)
  · rintro h x hx
    rcases List.mem_map.mp hx with ⟨c, hc, rfl⟩
    exact h c hc

lemma withRetryGo_success_op {ε α : Type} (op : Nat → AttemptResult ε α) (cfg : RetryConfig)
    (rand : Nat → ℚ) :
    ∀ (fuel start : Nat) (a : α) (k : Nat),
      (withRetryGo op cfg rand start fuel).1 = RetryOutcome.success a k →
      op k = AttemptResult.ok a := by
  intro fuel
  induction fuel with
  | zero =>
    intro start a k h
    cases hop : op start with
    | ok a' =>
      rw [withRetryGo_ok op cfg rand start 0 a' hop] at h
      cases h
      exact hop
    | fail e r =>
      cases r with
      | false =>
        rw [withRetryGo_terminal op cfg rand start 0 e hop] at h
        cases h
      | true =>
        rw [withRetryGo_exhausted op cfg rand start e hop] at h
        cases h
  | succ fuel ih =>
    intro start a k h
    cases hop : op start with
    | ok a' =>
      rw [withRetryGo_ok op cfg rand start (fuel + 1) a' hop] at h
      cases h
      exact hop
    | fail e r =>
      cases r with
      | false =>
        rw [withRetryGo_terminal op cfg rand start (fuel + 1) e hop] at h
        cases h
      | true =>
        rw [withRetryGo_retry op cfg rand start fuel e hop] at h
        exact ih (start + 1) a k h

lemma fanOutJob_ok_inner_success (b : Nat → Option JsError) (r : Nat → ℚ)
    (h : fanOutJob b r = Except.ok ()) : ∃ k, b k = none := by
  unfold fanOutJob at h
  cases hw : (withRetry (behaviorAttempt b) DEFAULT_RETRY_CONFIG r).1 with
  | success u k =>
    have hop : behaviorAttempt b k = AttemptResult.ok u := by
      have hw' : (withRetryGo (behaviorAttempt b) DEFAULT_RETRY_CONFIG r 0
          DEFAULT_RETRY_CONFIG.maxRetries).1 = RetryOutcome.success u k := hw
      exact withRetryGo_success_op (behaviorAttempt b) DEFAULT_RETRY_CONFIG r
        DEFAULT_RETRY_CONFIG.maxRetries 0 u k hw'
    cases hbk : b k with
    | none => exact ⟨k, hbk⟩
    | some e =>
      unfold behaviorAttempt at hop
      rw [hbk] at hop
      cases hop
  | failure e k =>
    rw [hw] at h
    cases h

lemma advance_ok_some_inv (db : List Transaction) (comps : List String) (tx : Transaction)
    (cb nb : String → Nat → Option JsError) (rnd : String → Nat → ℚ) (p : Nat × Bool)
    (h : (advanceTransactionProgress db comps tx cb nb rnd).2 = Except.ok (some p)) :
    p.1 = tx.id ∧
    ((getStatus comps tx = some TXStatus.TXSuccessful ∧ p.2 = true ∧
       promiseAllUnit (comps.map fun c => fanOutJob (cb c) (rnd c)) = Except.ok ()) ∨
     (getStatus comps tx = some TXStatus.TXFailure ∧ p.2 = false ∧
       promiseAllUnit (comps.map fun c => fanOutJob (nb c) (rnd c)) = Except.ok ())) := by
  unfold advanceTransactionProgress at h
  cases hst : getStatus comps tx with
  | none =>
    rw [hst] at h
    cases h
  | some s =>
    cases s with
    | TXHanging =>
      rw [hst] at h
      cases h
    | TXSuccessful =>
      rw [hst] at h
      cases hpa : promiseAllUnit (comps.map fun c => fanOutJob (cb c) (rnd c)) with
      | error e =>
        rw [hpa] at h
        cases h
      | ok u =>
        cases u
        rw [hpa] at h
        cases hsub : TXSubmit db tx.id true with
        | error e =>
          rw [hsub] at h
          cases h
        | ok db2 =>
          rw [hsub] at h
          cases h
          exact ⟨rfl, Or.inl ⟨rfl, rfl, rfl⟩⟩
    | TXFailure =>
      rw [hst] at h
      cases hpa : promiseAllUnit (comps.map fun c => fanOutJob (nb c) (rnd c)) with
      | error e =>
        rw [hpa] at h
        cases h
      | ok u =>
        cases u
        rw [hpa] at h
        cases hsub : TXSubmit db tx.id false with
        | error e =>
          rw [hsub] at h
          cases h
        | ok db2 =>
          rw [hsub] at h
          cases h
          exact ⟨rfl, Or.inr ⟨rfl, rfl, rfl⟩⟩

/-- Claim C1: in `advanceTransactionProgress`, `TXSubmit(tx.id, true)` (resp.
`false`) is invoked only after the confirm (resp. cancel) fan-out of every
registered component has returned success — the first conjunct shows a
performed submit implies every component's `withRetry`-wrapped confirm/cancel
job fulfilled (and the last conjunct shows a fulfilled job means the
component call itself returned success on some attempt); the middle conjuncts
show that if any component's fan-out rejects (retries exhausted or terminal
error) the invocation rejects with the store untouched — no `TXSubmit`, so a
transaction stored as `Hanging` stays `Hanging`. -/
theorem advanceTransactionProgress_submit_spec (db : List Transaction) (comps : List String)
    (tx : Transaction) (cb nb : String → Nat → Option JsError) (rnd : String → Nat → ℚ) :
    (∀ p : Nat × Bool,
      (advanceTransactionProgress db comps tx cb nb rnd).2 = Except.ok (some p) →
        p.1 = tx.id ∧
        (p.2 = true →
          getStatus comps tx = some TXStatus.TXSuccessful ∧
          ∀ c ∈ comps, fanOutJob (cb c) (rnd c) = Except.ok ()) ∧
        (p.2 = false →
          getStatus comps tx = some TXStatus.TXFailure ∧
          ∀ c ∈ comps, fanOutJob (nb c) (rnd c) = Except.ok ())) ∧
    (getStatus comps tx = some TXStatus.TXSuccessful →
      (∃ c ∈ comps, fanOutJob (cb c) (rnd c) ≠ Except.ok ()) →
      advanceTransactionProgress db comps tx cb nb rnd = (db, Except.error ())) ∧
    (getStatus comps tx = some TXStatus.TXFailure →
      (∃ c ∈ comps, fanOutJob (nb c) (rnd c) ≠ Except.ok ()) →
      advanceTransactionProgress db comps tx cb nb rnd = (db, Except.error ())) ∧
    (∀ (b : Nat → Option JsError) (r : Nat → ℚ),
      fanOutJob b r = Except.ok () → ∃ k, b k = none) := by
  refine ⟨?_, ?_, ?_, fanOutJob_ok_inner_success⟩
  · intro p h
    rcases advance_ok_some_inv db comps tx cb nb rnd p h with ⟨hid, hcase⟩
    refine ⟨hid, ?_, ?_⟩
    · intro htrue
      rcases hcase with ⟨hst, _, hpa⟩ | ⟨hst, hfalse, hpa⟩
      · exact ⟨hst, (promiseAllUnit_map_ok_iff comps _).mp hpa⟩
      · rw [htrue] at hfalse
        cases hfalse
    · intro hfalse
      rcases hcase with ⟨hst, htrue, hpa⟩ | ⟨hst, _, hpa⟩
      · rw [hfalse] at htrue
        cases htrue
      · exact ⟨hst, (promiseAllUnit_map_ok_iff comps _).mp hpa⟩
  · intro hst hex
    have hpa : promiseAllUnit (comps.map fun c => fanOutJob (cb c) (rnd c)) ≠ Except.ok () := by
      intro hcon
      rcases hex with ⟨c, hc, hne⟩
      exact hne ((promiseAllUnit_map_ok_iff comps _).mp hcon c hc)
    unfold advanceTransactionProgress
    rw [hst]
    cases hpa' : promiseAllUnit (comps.map fun c => fanOutJob (cb c) (rnd c)) with
    | error e => rfl
    | ok u =>
      cases u
      exact absurd hpa' hpa
  · intro hst hex
    have hpa : promiseAllUnit (comps.map fun c => fanOutJob (nb c) (rnd c)) ≠ Except.ok () := by
      intro hcon
      rcases hex with ⟨c, hc, hne⟩
      exact hne ((promiseAllUnit_map_ok_iff comps _).mp hcon c hc)
    unfold advanceTransactionProgress
    rw [hst]
    cases hpa' : promiseAllUnit (comps.map fun c => fanOutJob (nb c) (rnd c)) with
    | error e => rfl
    | ok u =>
      cases u
      exact absurd hpa' hpa

/-- Witness for C1: one registered component `"a"` whose try status is
`Successful` and whose confirm succeeds on its first attempt; the submit
`(tx.id, true)` that the run performs implies the aggregate status was
`Successful` and component `"a"`'s confirm fan-out fulfilled. -/
theorem advanceTransactionProgress_submit_spec_witness :
    getStatus ["a"]
        { id := 1, status := TXStatus.TXHanging
          component_try_statuses := [("a", ComponentTryStatus.TrySuccessful)]
          created_at := 0 } = some TXStatus.TXSuccessful ∧
    ∀ c ∈ (["a"] : List String),
      fanOutJob (fun _ => none) (fun _ => (0 : ℚ)) = Except.ok () :=
  ((advanceTransactionProgress_submit_spec
      [{ id := 1, status := TXStatus.TXHanging
         component_try_statuses := [("a", ComponentTryStatus.TrySuccessful)]
         created_at := 0 }]
      ["a"]
      { id := 1, status := TXStatus.TXHanging
        component_try_statuses := [("a", ComponentTryStatus.TrySuccessful)]
        created_at := 0 }
      (fun _ _ => none) (fun _ _ => none) (fun _ _ => 0)).1 (1, true) rfl).2.1 rfl

end Tstcc
